import Mathlib

/-!
Verification of the partition-scaling load driver
(`src/experiment_partitions.py`).

The driver keeps one shared mutable `Metrics` aggregate, classifies each
HTTP response of `submit_job` into counter updates plus a success/failure
report to the load framework, and at run stop appends one row to a CSV
file.  We embed the metrics state, the classification, the derived
throughput / error-rate computations and the start/stop hooks as pure
Lean functions; wall-clock instants are rationals passed explicitly.
-/

/-- The shared `Metrics` aggregate (`Metrics.__init__`): four counters,
an optional start instant, two fixed configuration fields, and the list
of job identifiers collected so far. -/
structure Metrics where
  total_jobs_submitted : Nat
  successful_submissions : Nat
  failed_submissions : Nat
  rate_limited : Nat
  start_time : Option ℚ
  partition_count : Nat
  worker_count : Nat
  job_ids : List String
  deriving DecidableEq, Repr

namespace Metrics

/-- `Metrics.__init__`: all counters zero, no start time, the two
compiled-in configuration constants, empty job-id list. -/
def init : Metrics :=
  { total_jobs_submitted := 0
    successful_submissions := 0
    failed_submissions := 0
    rate_limited := 0
    start_time := none
    partition_count := 16
    worker_count := 4
    job_ids := [] }

/-- `Metrics.reset`: zero the four counters, set `start_time` to the
current instant (`time.time()`), clear `job_ids`.  The configuration
fields are not assigned. -/
def reset (m : Metrics) (now : ℚ) : Metrics :=
  { m with
    total_jobs_submitted := 0
    successful_submissions := 0
    failed_submissions := 0
    rate_limited := 0
    start_time := some now
    job_ids := [] }

/-- `Metrics.get_throughput`: `0` if `start_time is None`; otherwise
`successful_submissions / elapsed` when `elapsed > 0`, else `0`. -/
def get_throughput (m : Metrics) (now : ℚ) : ℚ :=
  match m.start_time with
  | none => 0
  | some st =>
      let elapsed : ℚ := now - st
      if elapsed > 0 then (m.successful_submissions : ℚ) / elapsed else 0

/-- `Metrics.get_error_rate`:
`failed / (successful + failed) * 100` when that sum is positive, else `0`. -/
def get_error_rate (m : Metrics) : ℚ :=
  let total := m.successful_submissions + m.failed_submissions
  if total > 0 then (m.failed_submissions : ℚ) / (total : ℚ) * 100 else 0

end Metrics

/-- The part of a parsed 202 response body that `submit_job` inspects:
the values found under the keys `id` and `jobId`.  `none` stands for an
absent key or a JSON `null` (both give Python `None` via `dict.get`);
`some s` stands for a string value, possibly empty. -/
structure JsonBody where
  idField : Option String
  jobIdField : Option String
  deriving DecidableEq, Repr

/-- An HTTP response as seen by `submit_job`: a status code and, for the
job-id extraction, the outcome of `response.json()` — `none` when the
body is unparseable (or not an object), in which case the bare
`except: pass` swallows the exception. -/
structure Response where
  status_code : Nat
  body : Option JsonBody
  deriving DecidableEq, Repr

/-- What `submit_job` reports to the load framework:
`response.success()` or `response.failure(msg)`. -/
inductive Outcome where
  | success : Outcome
  | failure : String → Outcome
  deriving DecidableEq, Repr

/-- Python truthiness of an optional string: `None` and `""` are falsy. -/
def truthy : Option String → Bool
  | none => false
  | some s => !(s == "")

/-- Python `a or b` on optional strings: `a` when truthy, else `b`. -/
def pyOr (a b : Option String) : Option String :=
  if truthy a then a else b

/-- The job identifier that the 202 branch appends, if any:
`job_id = job_data.get('id') or job_data.get('jobId'); if job_id: append`.
A parse failure (`none` body) yields nothing via the bare `except`. -/
def extractJobId : Option JsonBody → Option String
  | none => none
  | some b =>
      let job_id := pyOr b.idField b.jobIdField
      if truthy job_id then job_id else none

/-- The line `metrics.total_jobs_submitted += 1`, executed once per
attempt before the classification branch. -/
def trackRequest (m : Metrics) : Metrics :=
  { m with total_jobs_submitted := m.total_jobs_submitted + 1 }

/-- The `if/elif/else` classification branch of `submit_job`, applied
after `trackRequest`.  Returns the updated metrics, the user's own
`jobs_submitted` counter, and what is reported to the framework. -/
def classifyResponse (m : Metrics) (user_jobs : Nat) (r : Response) :
    Metrics × Nat × Outcome :=
  if r.status_code == 202 then
    ({ m with
        successful_submissions := m.successful_submissions + 1
        job_ids := m.job_ids ++ (extractJobId r.body).toList },
      user_jobs + 1, .success)
  else if r.status_code == 200 || r.status_code == 201 then
    ({ m with successful_submissions := m.successful_submissions + 1 },
      user_jobs + 1, .success)
  else if r.status_code == 429 then
    ({ m with rate_limited := m.rate_limited + 1 }, user_jobs, .success)
  else if r.status_code ≥ 500 then
    ({ m with failed_submissions := m.failed_submissions + 1 },
      user_jobs, .failure ("Server error " ++ toString r.status_code))
  else if r.status_code ≥ 400 then
    ({ m with failed_submissions := m.failed_submissions + 1 },
      user_jobs, .failure ("Client error " ++ toString r.status_code))
  else
    ({ m with failed_submissions := m.failed_submissions + 1 },
      user_jobs, .failure ("Unexpected status " ++ toString r.status_code))

/-- `PartitionScalingUser.submit_job`, from the point where the response
is in hand: count the attempt, then classify. -/
def submit_job (m : Metrics) (user_jobs : Nat) (r : Response) :
    Metrics × Nat × Outcome :=
  classifyResponse (trackRequest m) user_jobs r

/-- Process a sequence of classified responses, threading the metrics. -/
def runResponses (m : Metrics) (rs : List Response) : Metrics :=
  rs.foldl (fun m r => (submit_job m 0 r).1) m

/-- The counting invariant of the aggregate. -/
def countersBalanced (m : Metrics) : Prop :=
  m.total_jobs_submitted =
    m.successful_submissions + m.failed_submissions + m.rate_limited

instance (m : Metrics) : Decidable (countersBalanced m) := by
  unfold countersBalanced; infer_instance

/-- `on_test_start`: print the banner (no state effect), then
`metrics.reset()`. -/
def on_test_start (m : Metrics) (now : ℚ) : Metrics :=
  m.reset now

/-- One CSV cell, kept typed so that header cells (strings) and data
cells (numbers) are distinguishable. -/
inductive CSVCell where
  | str : String → CSVCell
  | nat : Nat → CSVCell
  | rat : ℚ → CSVCell
  deriving DecidableEq, Repr

/-- Python `round` rounds half to even. -/
def roundHalfEven (q : ℚ) : ℤ :=
  let f := ⌊q⌋
  let r := q - f
  if r < 1/2 then f
  else if 1/2 < r then f + 1
  else if f % 2 = 0 then f else f + 1

/-- Python `round(x, 2)`. -/
def round2 (q : ℚ) : ℚ := (roundHalfEven (q * 100) : ℚ) / 100

/-- The header row written when the CSV file is first created. -/
def csvHeader : List CSVCell :=
  [ .str "timestamp", .str "partition_count", .str "worker_count",
    .str "total_submitted", .str "successful", .str "failed",
    .str "rate_limited", .str "error_rate_%", .str "duration_sec",
    .str "throughput_jobs_per_sec", .str "avg_response_time_ms" ]

/-- The data row `on_test_stop` appends for one run. -/
def resultRow (m : Metrics) (timestamp : String)
    (duration throughput error_rate avg_response_time : ℚ) : List CSVCell :=
  [ .str timestamp, .nat m.partition_count, .nat m.worker_count,
    .nat m.total_jobs_submitted, .nat m.successful_submissions,
    .nat m.failed_submissions, .nat m.rate_limited,
    .rat (round2 error_rate), .rat (round2 duration),
    .rat (round2 throughput), .rat (round2 avg_response_time) ]

/-- The request-timing aggregation of the load framework
(`environment.stats.total`), read but not computed by the driver. -/
structure LoadStats where
  num_requests : Nat
  avg_response_time : ℚ
  deriving DecidableEq, Repr

/-- `on_test_stop`.  The CSV file is `none` when absent, `some rows`
when present with those rows.  With `start_time` unset the hook prints
"No test data collected" and returns, leaving the file untouched;
otherwise it opens the file in append mode (creating it when absent),
writes the header exactly when `os.path.isfile` was false, and appends
one data row.  Both `time.time()` reads of the hook are idealised to the
single instant `now`. -/
def on_test_stop (file : Option (List (List CSVCell))) (m : Metrics)
    (now : ℚ) (timestamp : String) (stats : LoadStats) :
    Option (List (List CSVCell)) :=
  match m.start_time with
  | none => file
  | some st =>
      let duration := now - st
      let throughput := m.get_throughput now
      let error_rate := m.get_error_rate
      let existing := file.getD []
      let withHeader := if file.isSome then existing else existing ++ [csvHeader]
      let avg := if stats.num_requests > 0 then stats.avg_response_time else 0
      some (withHeader ++
        [resultRow m timestamp duration throughput error_rate avg])

/-- Substring test on the underlying character lists. -/
def strContains (s pat : String) : Bool :=
  (List.range (s.length + 1)).any
    (fun i => List.isPrefixOf pat.toList (s.toList.drop i))

/-- Exactly one of the three classification counters grows by one while
the other two are untouched. -/
def exactlyOneBranchIncrement (m m' : Metrics) : Prop :=
  (m'.successful_submissions = m.successful_submissions + 1 ∧
    m'.failed_submissions = m.failed_submissions ∧
    m'.rate_limited = m.rate_limited) ∨
  (m'.successful_submissions = m.successful_submissions ∧
    m'.failed_submissions = m.failed_submissions + 1 ∧
    m'.rate_limited = m.rate_limited) ∨
  (m'.successful_submissions = m.successful_submissions ∧
    m'.failed_submissions = m.failed_submissions ∧
    m'.rate_limited = m.rate_limited + 1)

instance (m m' : Metrics) : Decidable (exactlyOneBranchIncrement m m') := by
  unfold exactlyOneBranchIncrement; infer_instance

/-- One classified response adds one to `total_jobs_submitted` and to
exactly one of the three outcome counters. -/
lemma submit_job_step (m : Metrics) (u : Nat) (r : Response) :
    (submit_job m u r).1.total_jobs_submitted = m.total_jobs_submitted + 1 ∧
    exactlyOneBranchIncrement m (submit_job m u r).1 := by
  unfold submit_job classifyResponse trackRequest exactlyOneBranchIncrement
  split_ifs <;> simp

/-- One classified response preserves the counting invariant. -/
lemma submit_job_balanced (m : Metrics) (u : Nat) (r : Response)
    (h : countersBalanced m) : countersBalanced (submit_job m u r).1 := by
  obtain ⟨ht, hone⟩ := submit_job_step m u r
  unfold countersBalanced at *
  rcases hone with ⟨h1, h2, h3⟩ | ⟨h1, h2, h3⟩ | ⟨h1, h2, h3⟩ <;> omega

/-- Folding any response sequence preserves the counting invariant. -/
lemma runResponses_balanced (rs : List Response) (m : Metrics)
    (h : countersBalanced m) : countersBalanced (runResponses m rs) := by
  induction rs generalizing m with
  | nil => exact h
  | cons r rs ih => exact ih _ (submit_job_balanced m 0 r h)

/-- C1: after each classification `totalSubmitted = successful + failed +
rateLimited` holds; `totalSubmitted` grows by exactly one per attempt,
by the `trackRequest` step that precedes the classification branch, and
the branch increments exactly one of the other three counters.  The
invariant is preserved along every response sequence, hence holds after
each prefix. -/
theorem c1_counter_invariant (m : Metrics) (u : Nat) (r : Response)
    (h : countersBalanced m) (rs : List Response) (n : Nat) :
    (submit_job m u r).1.total_jobs_submitted = m.total_jobs_submitted + 1 ∧
    submit_job m u r = classifyResponse (trackRequest m) u r ∧
    exactlyOneBranchIncrement m (submit_job m u r).1 ∧
    countersBalanced (submit_job m u r).1 ∧
    countersBalanced (runResponses m (rs.take n)) :=
  ⟨(submit_job_step m u r).1, rfl, (submit_job_step m u r).2,
    submit_job_balanced m u r h, runResponses_balanced _ m h⟩

/-- Witness for C1 at the initial metrics and a mixed response sequence. -/
theorem c1_counter_invariant_witness :
    countersBalanced Metrics.init ∧
    ((submit_job Metrics.init 0 ⟨202, none⟩).1.total_jobs_submitted =
        Metrics.init.total_jobs_submitted + 1 ∧
      submit_job Metrics.init 0 ⟨202, none⟩ =
        classifyResponse (trackRequest Metrics.init) 0 ⟨202, none⟩ ∧
      exactlyOneBranchIncrement Metrics.init
        (submit_job Metrics.init 0 ⟨202, none⟩).1 ∧
      countersBalanced (submit_job Metrics.init 0 ⟨202, none⟩).1 ∧
      countersBalanced (runResponses Metrics.init
        ([⟨200, none⟩, ⟨429, none⟩, ⟨503, none⟩].take 2))) :=
  ⟨by decide, c1_counter_invariant Metrics.init 0 ⟨202, none⟩ (by decide)
    [⟨200, none⟩, ⟨429, none⟩, ⟨503, none⟩] 2⟩

/-- C2: throughput is 0 when `start_time` is unset or the elapsed time is
not positive; otherwise it is `successful_submissions` divided by the
elapsed seconds since `start_time`. -/
theorem c2_throughput_cases (m : Metrics) (now : ℚ) :
    (m.start_time = none → m.get_throughput now = 0) ∧
    (∀ st, m.start_time = some st → now - st ≤ 0 →
      m.get_throughput now = 0) ∧
    (∀ st, m.start_time = some st → 0 < now - st →
      m.get_throughput now = (m.successful_submissions : ℚ) / (now - st)) := by
  refine ⟨fun h => ?_, fun st h hle => ?_, fun st h hpos => ?_⟩ <;>
    simp only [Metrics.get_throughput, h]
  · rw [if_neg (not_lt.mpr hle)]
  · rw [if_pos hpos]

/-- Witness for C2: six successes over three elapsed seconds. -/
theorem c2_throughput_cases_witness :
    (0:ℚ) < 4 - 1 ∧
    Metrics.get_throughput
        { Metrics.init with start_time := some 1, successful_submissions := 6 }
        4 =
      (({ Metrics.init with start_time := some 1, successful_submissions := 6
          } : Metrics).successful_submissions : ℚ) / (4 - 1) :=
  ⟨by simp,
    (c2_throughput_cases
      { Metrics.init with start_time := some 1, successful_submissions := 6 }
      4).2.2 1 rfl (by simp)⟩

/-- C3: the error rate is 0 when `successful + failed = 0`, otherwise
`failed / (successful + failed) * 100`; `rate_limited` influences neither
term, so changing it never changes the error rate. -/
theorem c3_error_rate_cases (m : Metrics) :
    (m.successful_submissions + m.failed_submissions = 0 →
      m.get_error_rate = 0) ∧
    (m.successful_submissions + m.failed_submissions ≠ 0 →
      m.get_error_rate = (m.failed_submissions : ℚ) /
        ((m.successful_submissions : ℚ) + (m.failed_submissions : ℚ)) * 100) ∧
    (∀ k, Metrics.get_error_rate { m with rate_limited := k } =
      m.get_error_rate) := by
  refine ⟨fun h => ?_, fun h => ?_, fun k => rfl⟩
  · simp [Metrics.get_error_rate, h]
  · have hpos : 0 < m.successful_submissions + m.failed_submissions :=
      Nat.pos_of_ne_zero h
    simp only [Metrics.get_error_rate, if_pos hpos]
    push_cast
    ring

/-- Witness for C3: one success and one failure give a 50 percent rate. -/
theorem c3_error_rate_cases_witness :
    (({ Metrics.init with
        successful_submissions := 1
        failed_submissions := 1 } : Metrics).successful_submissions +
      ({ Metrics.init with
        successful_submissions := 1
        failed_submissions := 1 } : Metrics).failed_submissions ≠ 0 ∧
      Metrics.get_error_rate
          { Metrics.init with
            successful_submissions := 1
            failed_submissions := 1 } =
        ((1 : Nat) : ℚ) / (((1 : Nat) : ℚ) + ((1 : Nat) : ℚ)) * 100) :=
  ⟨by decide,
    (c3_error_rate_cases
      { Metrics.init with
        successful_submissions := 1
        failed_submissions := 1 }).2.1 (by decide)⟩

/-- C7: `reset` zeroes the four counters and empties `job_ids` while the
configuration fields `partition_count` and `worker_count` are unchanged. -/
theorem c7_reset_frame (m : Metrics) (now : ℚ) :
    (m.reset now).total_jobs_submitted = 0 ∧
    (m.reset now).successful_submissions = 0 ∧
    (m.reset now).failed_submissions = 0 ∧
    (m.reset now).rate_limited = 0 ∧
    (m.reset now).job_ids = [] ∧
    (m.reset now).partition_count = m.partition_count ∧
    (m.reset now).worker_count = m.worker_count :=
  ⟨rfl, rfl, rfl, rfl, rfl, rfl, rfl⟩

/-- C4: a 202 response increments `successful_submissions` by one and is
reported as a success; a parseable body contributes its identifier to
`job_ids`, an unparseable body leaves `job_ids` unchanged, and in either
case the parse outcome never affects the classification. -/
theorem c4_accepted_202 (m : Metrics) (u : Nat) (b : Option JsonBody) :
    (submit_job m u ⟨202, b⟩).1.successful_submissions =
      m.successful_submissions + 1 ∧
    (submit_job m u ⟨202, b⟩).2.2 = Outcome.success ∧
    (submit_job m u ⟨202, b⟩).1.job_ids =
      m.job_ids ++ (extractJobId b).toList ∧
    (submit_job m u ⟨202, none⟩).1.job_ids = m.job_ids ∧
    extractJobId (some ⟨some "abc123", none⟩) = some "abc123" ∧
    (submit_job m u ⟨202, some ⟨some "abc123", none⟩⟩).1.job_ids =
      m.job_ids ++ ["abc123"] ∧
    (submit_job m u ⟨202, b⟩).1.failed_submissions = m.failed_submissions ∧
    (submit_job m u ⟨202, b⟩).1.rate_limited = m.rate_limited := by
  refine ⟨rfl, rfl, rfl, by simp [submit_job, classifyResponse, trackRequest,
    extractJobId], by decide, ?_, rfl, rfl⟩
  simp [submit_job, classifyResponse, trackRequest, extractJobId, pyOr, truthy]

/-- C5: a 429 response increments `rate_limited` by one, is reported to
the framework as a success, and leaves `successful_submissions` and
`failed_submissions` unchanged. -/
theorem c5_rate_limited_429 (m : Metrics) (u : Nat) (b : Option JsonBody) :
    (submit_job m u ⟨429, b⟩).1.rate_limited = m.rate_limited + 1 ∧
    (submit_job m u ⟨429, b⟩).2.2 = Outcome.success ∧
    (submit_job m u ⟨429, b⟩).1.successful_submissions =
      m.successful_submissions ∧
    (submit_job m u ⟨429, b⟩).1.failed_submissions = m.failed_submissions :=
  ⟨rfl, rfl, rfl, rfl⟩

/-- C6: any response with status at least 500 increments
`failed_submissions` by one and is reported as a failure whose message is
the server-error wording followed by the actual status code; at 503 the
message contains both the code and the server-error wording. -/
theorem c6_server_error (m : Metrics) (u : Nat) (s : Nat)
    (b : Option JsonBody) (h : 500 ≤ s) :
    (submit_job m u ⟨s, b⟩).1.failed_submissions =
      m.failed_submissions + 1 ∧
    (submit_job m u ⟨s, b⟩).2.2 =
      Outcome.failure ("Server error " ++ toString s) ∧
    strContains ("Server error " ++ toString 503) (toString 503) = true ∧
    strContains ("Server error " ++ toString 503) "Server error" = true := by
  have h202 : (s == 202) = false := by simp; omega
  have h200 : (s == 200) = false := by simp; omega
  have h201 : (s == 201) = false := by simp; omega
  have h429 : (s == 429) = false := by simp; omega
  have h500 : 500 ≤ s := h
  refine ⟨?_, ?_, by decide, by decide⟩ <;>
    simp [submit_job, classifyResponse, trackRequest, h202, h200, h201,
      h429, h500]

/-- Witness for C6 at status 503 on the initial metrics. -/
theorem c6_server_error_witness :
    500 ≤ 503 ∧
    ((submit_job Metrics.init 0 ⟨503, none⟩).1.failed_submissions =
        Metrics.init.failed_submissions + 1 ∧
      (submit_job Metrics.init 0 ⟨503, none⟩).2.2 =
        Outcome.failure ("Server error " ++ toString 503) ∧
      strContains ("Server error " ++ toString 503) (toString 503) = true ∧
      strContains ("Server error " ++ toString 503) "Server error" = true) :=
  ⟨by decide, c6_server_error Metrics.init 0 503 none (by decide)⟩

/-- C9: on a parseable 202 body the `id` value wins when truthy, else a
truthy `jobId` value is taken, else nothing is appended; in particular a
`null`/absent or empty `id` falls through to `jobId`, and two falsy
fields leave `job_ids` unchanged. -/
theorem c9_id_precedence (m : Metrics) (u : Nat)
    (idF jobIdF : Option String) :
    (submit_job m u ⟨202, some ⟨idF, jobIdF⟩⟩).1.job_ids =
      m.job_ids ++
        (if truthy idF then [idF.getD ""]
         else if truthy jobIdF then [jobIdF.getD ""]
         else []) ∧
    (submit_job m u ⟨202, some ⟨some "A", some "B"⟩⟩).1.job_ids =
      m.job_ids ++ ["A"] ∧
    (submit_job m u ⟨202, some ⟨none, some "B"⟩⟩).1.job_ids =
      m.job_ids ++ ["B"] ∧
    (submit_job m u ⟨202, some ⟨some "", some "B"⟩⟩).1.job_ids =
      m.job_ids ++ ["B"] ∧
    (submit_job m u ⟨202, some ⟨some "", some ""⟩⟩).1.job_ids =
      m.job_ids := by
  refine ⟨?_, ?_, ?_, ?_, ?_⟩
  case _ =>
    by_cases h1 : truthy idF
    · obtain ⟨s, rfl⟩ : ∃ s, idF = some s := by
        cases idF with
        | none => simp [truthy] at h1
        | some s => exact ⟨s, rfl⟩
      have hs : ¬(s = "") := by simpa [truthy] using h1
      simp [submit_job, classifyResponse, trackRequest, extractJobId, pyOr,
        truthy, hs]
    · have h1' : truthy idF = false := by
        cases h : truthy idF <;> simp_all
      by_cases h2 : truthy jobIdF
      · obtain ⟨s, rfl⟩ : ∃ s, jobIdF = some s := by
          cases jobIdF with
          | none => simp [truthy] at h2
          | some s => exact ⟨s, rfl⟩
        have h2' : truthy (some s) = true := h2
        simp [submit_job, classifyResponse, trackRequest, extractJobId, pyOr,
          h1', h2']
      · have h2' : truthy jobIdF = false := by
          cases h : truthy jobIdF <;> simp_all
        simp [submit_job, classifyResponse, trackRequest, extractJobId, pyOr,
          h1', h2']
  all_goals
    simp [submit_job, classifyResponse, trackRequest, extractJobId, pyOr,
      truthy]

/-- The data row `on_test_stop` appends when the run started at `st` and
stops at `now`: `resultRow` applied to the quantities the hook computes. -/
def stopRow (m : Metrics) (st now : ℚ) (ts : String) (stats : LoadStats) :
    List CSVCell :=
  resultRow m ts (now - st) (m.get_throughput now) m.get_error_rate
    (if stats.num_requests > 0 then stats.avg_response_time else 0)

/-- The data row never coincides with the header row: its second cell is
numeric while the header's is the string "partition_count". -/
lemma stopRow_ne_csvHeader (m : Metrics) (st now : ℚ) (ts : String)
    (stats : LoadStats) : stopRow m st now ts stats ≠ csvHeader := by
  simp [stopRow, resultRow, csvHeader]

/-- C8: with a started run, stopping appends exactly one 11-column data
row; the header is written exactly when the file did not exist, so a
second run against the produced file appends a row without a second
header. -/
theorem c8_csv_append (m : Metrics) (st now : ℚ) (ts : String)
    (stats : LoadStats) (rows : List (List CSVCell))
    (h : m.start_time = some st) :
    on_test_stop none m now ts stats =
      some [csvHeader, stopRow m st now ts stats] ∧
    on_test_stop (some rows) m now ts stats =
      some (rows ++ [stopRow m st now ts stats]) ∧
    (stopRow m st now ts stats).length = 11 ∧
    csvHeader.length = 11 ∧
    ((on_test_stop (on_test_stop none m now ts stats) m now ts
        stats).getD []).count csvHeader = 1 := by
  have h1 : on_test_stop none m now ts stats =
      some [csvHeader, stopRow m st now ts stats] := by
    simp [on_test_stop, h, stopRow]
  have h2 : on_test_stop (some rows) m now ts stats =
      some (rows ++ [stopRow m st now ts stats]) := by
    simp [on_test_stop, h, stopRow]
  refine ⟨h1, h2, rfl, rfl, ?_⟩
  rw [h1]
  have h3 : on_test_stop (some [csvHeader, stopRow m st now ts stats]) m now
      ts stats =
      some ([csvHeader, stopRow m st now ts stats] ++
        [stopRow m st now ts stats]) := by
    simp [on_test_stop, h, stopRow]
  rw [h3]
  simp [List.count_cons, stopRow_ne_csvHeader m st now ts stats]

/-- Witness for C8 on freshly reset metrics. -/
theorem c8_csv_append_witness :
    (Metrics.reset Metrics.init 0).start_time = some 0 ∧
    (on_test_stop none (Metrics.reset Metrics.init 0) 1 "t" ⟨0, 0⟩ =
        some [csvHeader, stopRow (Metrics.reset Metrics.init 0) 0 1 "t" ⟨0, 0⟩] ∧
      on_test_stop (some []) (Metrics.reset Metrics.init 0) 1 "t" ⟨0, 0⟩ =
        some ([] ++ [stopRow (Metrics.reset Metrics.init 0) 0 1 "t" ⟨0, 0⟩]) ∧
      (stopRow (Metrics.reset Metrics.init 0) 0 1 "t" ⟨0, 0⟩).length = 11 ∧
      csvHeader.length = 11 ∧
      ((on_test_stop
          (on_test_stop none (Metrics.reset Metrics.init 0) 1 "t" ⟨0, 0⟩)
          (Metrics.reset Metrics.init 0) 1 "t" ⟨0, 0⟩).getD []).count
        csvHeader = 1) :=
  ⟨rfl, c8_csv_append (Metrics.reset Metrics.init 0) 0 1 "t" ⟨0, 0⟩ [] rfl⟩

/-- C10: `reset` always sets `start_time` to the current instant, so
after the run-start hook `start_time` is never `none`: the throughput
computation takes its non-`none` branch and the run-stop hook never hits
its early "No test data collected" return, appending a row instead. -/
theorem c10_start_time_always_set (m : Metrics) (now t : ℚ) (ts : String)
    (stats : LoadStats) (rows : List (List CSVCell)) :
    (Metrics.reset m now).start_time = some now ∧
    (on_test_start m now).start_time = some now ∧
    (on_test_start m now).start_time ≠ none ∧
    Metrics.get_throughput (on_test_start m now) t =
      (if 0 < t - now
       then ((on_test_start m now).successful_submissions : ℚ) / (t - now)
       else 0) ∧
    on_test_stop (some rows) (on_test_start m now) t ts stats =
      some (rows ++ [stopRow (on_test_start m now) now t ts stats]) ∧
    (on_test_stop none (on_test_start m now) t ts stats).isSome = true := by
  refine ⟨rfl, rfl, by simp [on_test_start, Metrics.reset], rfl, ?_, ?_⟩
  · simp [on_test_stop, on_test_start, Metrics.reset, stopRow]
  · simp [on_test_stop, on_test_start, Metrics.reset]
